import Mathlib

/-!
Verification of the AI Game Partner analysis coordinator.

This file is a shallow embedding of the pieces of the program that the
coordinator claims are about: the screenshot store maintained by
ScreenCapture (screen_capture.py), the conversation history maintained by
AIClient.analyze (ai_client.py), and one iteration of the analysis loop of
GamePartner (main.py), together with theorems about them.

Modelling conventions:
9 wall-clock timestamps are abstract integers;
9 the remote chat-completion call (client.messages.create) is the only
  fallible operation; its outcome is passed in as a value of type
  Except String String whose error component is the rendered exception text;
9 queues are lists whose head is the front of the queue (dequeue takes the
  head, enqueue appends at the back);
9 the UI closures put on ui_update_queue all call overlay.add_message, so a
  queued instruction is modelled by the message text and the is_ai flag.
-/

namespace AIGamePartner

/-- A captured screenshot, class Screenshot of screen_capture.py: the saved
file path and the capture timestamp. -/
structure Screenshot where
  image_path : String
  timestamp : Int
  deriving DecidableEq

/-- The role of one entry of AIClient.conversation_history. -/
inductive Role where
  | user
  | assistant
  deriving DecidableEq

/-- One entry of AIClient.conversation_history: the role string and, since
every entry the code builds has a single text block as content, the text of
that block. -/
structure Turn where
  role : Role
  text : String
  deriving DecidableEq

/-- A queued UI update. The code enqueues closures that call
overlay.add_message(text, time.time(), is_ai); the timestamp is taken when
the closure runs on the UI thread, so an instruction is modelled by the
message text and the is_ai flag. -/
structure UiInstruction where
  text : String
  is_ai : Bool
  deriving DecidableEq

/-- The game_state dictionary assembled in GamePartner._process_message and
GamePartner._analyze_game_state and consumed by AIClient.analyze.
The additional_context mapping only ever reaches the prompt through its
rendered string form, so it is carried as that string (main.py always passes
the empty mapping, which renders as \x7b\x7d). -/
structure GameState where
  screenshots : List Screenshot
  message : Option String
  game_name : Option String
  additional_context : String
  deriving DecidableEq

/-- The state of AIClient (ai_client.py) that analyze reads and writes:
conversation_history, max_history (memory_window_size) and
max_response_length. -/
structure AIClientState where
  conversation_history : List Turn
  max_history : Nat
  max_response_length : Nat
  deriving DecidableEq

/-- The front-eviction loop pattern that appears twice in the source, as
while len(conversation_history) > max_history * 2: pop(0) at
ai_client.py line 145 and as
while len(screenshots) > max_screenshots: pop(0) at
screen_capture.py line 121: pop the front element while the list is longer
than the bound. -/
def popFrontWhileLonger (bound : Nat) : List α → List α
  | [] => []
  | x :: rest =>
    if bound < rest.length + 1 then popFrontWhileLonger bound rest
    else x :: rest

/-- The eviction loop keeps the last min(length, bound) elements: it equals
dropping the excess from the front. -/
theorem popFrontWhileLonger_eq_drop (bound : Nat) :
    ∀ l : List α, popFrontWhileLonger bound l = l.drop (l.length - bound) := by
  intro l
  induction l with
  | nil => simp [popFrontWhileLonger]
  | cons x rest ih =>
    by_cases h : bound < rest.length + 1
    · have h2 : rest.length + 1 - bound = (rest.length - bound) + 1 := by omega
      simp only [popFrontWhileLonger, if_pos h, ih, List.length_cons, h2,
        List.drop_succ_cons]
    · have h2 : rest.length + 1 - bound = 0 := by omega
      simp only [popFrontWhileLonger, if_neg h, List.length_cons, h2,
        List.drop_zero]

/-- The history-trimming loop of AIClient.analyze (ai_client.py line 145):
pop the oldest entry while the history is longer than max_history * 2. -/
def trimHistory (max_history : Nat) (history : List Turn) : List Turn :=
  popFrontWhileLonger (2 * max_history) history

/-- One completed insert/evict pair of ScreenCapture._capture_loop
(screen_capture.py lines 117 and 121): append the new screenshot at the
back, then pop the front while the store is longer than max_screenshots. -/
def insertScreenshot (max_screenshots : Nat) (store : List Screenshot)
    (shot : Screenshot) : List Screenshot :=
  popFrontWhileLonger max_screenshots (store ++ [shot])

/-- ScreenCapture.get_recent_screenshots (screen_capture.py lines 138-142):
returns screenshots[-count:] when the store is non-empty and the empty list
otherwise. The Python slice with a negative start takes the last count
elements when count is positive; when count is zero the start index -0 is 0
and the slice is the whole list. -/
def get_recent_screenshots (screenshots : List Screenshot) (count : Nat) :
    List Screenshot :=
  if screenshots.isEmpty then []
  else if count = 0 then screenshots
  else screenshots.drop (screenshots.length - count)

/-- The human_message string built by AIClient.analyze
(ai_client.py lines 65-80): the instruction block with the screenshot count,
the response-length bound and the rendered additional context interpolated,
preceded by the user message line when present, then by the game name line
when present. -/
def buildHumanMessage (max_response_length : Nat) (gs : GameState) : String :=
  let base :=
    "Analyze these " ++ toString gs.screenshots.length ++ " screenshots.\n" ++
    "            \n" ++
    "            Remember:\n" ++
    "            - Keep your response under " ++ toString max_response_length
      ++ " characters\n" ++
    "            - Focus on what\x27s new/changed\n" ++
    "            - One clear, actionable suggestion\n" ++
    "            - If no game is detected and there\x27s no user message, respond with \x27Waiting for gameplay...\x27\n" ++
    "            - If there\x27s a user message, respond to it conversationally while mentioning that you\x27re waiting for gameplay\n" ++
    "            \n" ++
    "            Additional context: " ++ gs.additional_context
  let withMessage :=
    match gs.message with
    | some m => "User message: " ++ m ++ "\n\n" ++ base
    | none => base
  match gs.game_name with
  | some g => "Game: " ++ g ++ "\n\n" ++ withMessage
  | none => withMessage

/-- AIClient.analyze (ai_client.py lines 59-153). The whole body runs inside
try/except; the only fallible step is the remote completion call, whose
outcome is the remote argument. On success the reply text is returned and a
user turn holding human_message plus an assistant turn holding the reply are
appended to the history, which is then trimmed; on any failure the history
is untouched and the string Error analyzing game state: followed by the
rendered exception is returned. -/
def analyze (st : AIClientState) (gs : GameState)
    (remote : Except String String) : String × AIClientState :=
  let human_message := buildHumanMessage st.max_response_length gs
  match remote with
  | Except.ok reply =>
    let h := st.conversation_history ++
      [{ role := Role.user, text := human_message },
       { role := Role.assistant, text := reply }]
    (reply, { st with conversation_history := trimHistory st.max_history h })
  | Except.error e => ("Error analyzing game state: " ++ e, st)

/-- C7: inserting into the screenshot store never leaves it longer than
max_screenshots once the insert/evict pair completes, and eviction removes
the oldest entries first: the result is exactly the old store with the new
screenshot appended, minus the excess dropped from the front (FIFO). -/
theorem screenshot_store_bounded_fifo (max_screenshots : Nat)
    (store : List Screenshot) (shot : Screenshot) :
    (insertScreenshot max_screenshots store shot).length ≤ max_screenshots ∧
    insertScreenshot max_screenshots store shot =
      (store ++ [shot]).drop ((store.length + 1) - max_screenshots) := by
  have h := popFrontWhileLonger_eq_drop max_screenshots (store ++ [shot])
  have hl : (store ++ [shot]).length = store.length + 1 := by
    simp [List.length_append]
  constructor
  · rw [insertScreenshot, h, List.length_drop]
    omega
  · rw [insertScreenshot, h, hl]

/-- C10: analyze is total in the remote outcome. Whatever the remote call
does, analyze returns a string: the reply on success, and on any failure the
string Error analyzing game state: followed by the rendered exception, so no
error ever propagates to the caller. -/
theorem analyze_total_result (st : AIClientState) (gs : GameState)
    (remote : Except String String) :
    (analyze st gs remote).1 =
      (match remote with
       | Except.ok reply => reply
       | Except.error e => "Error analyzing game state: " ++ e) := by
  cases remote <;> rfl

/-- C9 counterexample: the claim says get_recent_screenshots(count) returns
at most count screenshots for every non-negative count, but with count = 0
the Python slice screenshots[-0:] is screenshots[0:], the whole store: on a
one-element store the call returns that element, so the length exceeds 0. -/
theorem get_recent_screenshots_zero_count :
    get_recent_screenshots [{ image_path := "a.png", timestamp := 0 }] 0 =
      [{ image_path := "a.png", timestamp := 0 }] ∧
    ¬ (get_recent_screenshots
        [{ image_path := "a.png", timestamp := 0 }] 0).length ≤ 0 := by
  constructor
  · rfl
  · decide

/-- C9 as amended: for every positive count, get_recent_screenshots returns
exactly the suffix of the store of length min(count, length) — the most
recent screenshots in order, most recent last, never more than count — and,
being a pure read, leaves the store unchanged. For count = 0 the whole store
is returned instead. -/
theorem get_recent_screenshots_suffix (screenshots : List Screenshot)
    (count : Nat) (h : 1 ≤ count) :
    get_recent_screenshots screenshots count =
      screenshots.drop (screenshots.length - count) ∧
    (get_recent_screenshots screenshots count).length ≤ count := by
  have heq : get_recent_screenshots screenshots count =
      screenshots.drop (screenshots.length - count) := by
    rw [get_recent_screenshots]
    by_cases he : screenshots.isEmpty
    · rw [if_pos he]
      rw [List.isEmpty_iff] at he
      rw [he]
      simp
    · rw [if_neg he, if_neg (by omega : ¬ count = 0)]
  refine ⟨heq, ?_⟩
  rw [heq, List.length_drop]
  omega

/-- C9 witness: the amended statement evaluated at a two-element store with
count = 1: the most recent screenshot alone is returned. -/
theorem get_recent_screenshots_suffix_witness :
    get_recent_screenshots
        [{ image_path := "a.png", timestamp := 0 },
         { image_path := "b.png", timestamp := 1 }] 1 =
      ([{ image_path := "a.png", timestamp := 0 },
        { image_path := "b.png", timestamp := 1 }] :
         List Screenshot).drop (2 - 1) ∧
    (get_recent_screenshots
        [{ image_path := "a.png", timestamp := 0 },
         { image_path := "b.png", timestamp := 1 }] 1).length ≤ 1 :=
  get_recent_screenshots_suffix
    [{ image_path := "a.png", timestamp := 0 },
     { image_path := "b.png", timestamp := 1 }] 1 (by decide)

/-- The two history entries that one successful analyze call appends
(ai_client.py lines 134-142): the user turn holding the built human_message
and the assistant turn holding the reply. -/
def exchangeTurns (mr : Nat) (p : GameState × String) : List Turn :=
  [{ role := Role.user, text := buildHumanMessage mr p.1 },
   { role := Role.assistant, text := p.2 }]

/-- Fold a sequence of analyze calls (each a game state together with the
outcome of its remote call) through the client state, in order. -/
def runAnalyses (st : AIClientState) :
    List (GameState × Except String String) → AIClientState
  | [] => st
  | (gs, outcome) :: rest => runAnalyses (analyze st gs outcome).2 rest

/-- The successful exchanges of a call sequence, in order: the game state
paired with the reply, for exactly the calls whose remote outcome was ok. -/
def successes :
    List (GameState × Except String String) → List (GameState × String)
  | [] => []
  | (gs, Except.ok r) :: rest => (gs, r) :: successes rest
  | (_, Except.error _) :: rest => successes rest

/-- Flattening a list of two-element chunks doubles the length. -/
theorem flatten_length_chunks :
    ∀ E : List (List Turn), (∀ c ∈ E, c.length = 2) →
      E.flatten.length = 2 * E.length := by
  intro E
  induction E with
  | nil => intro _; rfl
  | cons c E ih =>
    intro h
    have hc : c.length = 2 := h c (by simp)
    have hE : ∀ x ∈ E, x.length = 2 := fun x hx => h x (by simp [hx])
    rw [List.flatten_cons, List.length_append, hc, ih hE, List.length_cons]
    omega

/-- Dropping twice m turns from the flattening of two-element chunks is the
flattening with the first m chunks dropped. -/
theorem flatten_drop_chunks :
    ∀ E : List (List Turn), (∀ c ∈ E, c.length = 2) → ∀ m : Nat,
      E.flatten.drop (2 * m) = (E.drop m).flatten := by
  intro E
  induction E with
  | nil => intro _ m; simp
  | cons c E ih =>
    intro h m
    have hc : c.length = 2 := h c (by simp)
    have hE : ∀ x ∈ E, x.length = 2 := fun x hx => h x (by simp [hx])
    cases m with
    | zero => simp
    | succ k =>
      rw [List.flatten_cons, List.drop_succ_cons,
        List.drop_append_eq_append_drop,
        List.drop_eq_nil_of_le (by omega : c.length ≤ 2 * (k + 1)),
        List.nil_append, hc]
      have h2 : 2 * (k + 1) - 2 = 2 * k := by omega
      rw [h2, ih hE k]

/-- Dropping the pre-window excess of F early and then taking the W-window
of the whole gives the same W-window as never dropping early. -/
theorem window_drop_absorb (F G : List (List Turn)) (W : Nat) :
    ((F.drop (F.length - W)) ++ G).drop
        (((F.drop (F.length - W)) ++ G).length - W)
      = (F ++ G).drop ((F ++ G).length - W) := by
  have h1 : (F ++ G).drop (F.length - W) = F.drop (F.length - W) ++ G := by
    rw [List.drop_append_eq_append_drop]
    have h0 : F.length - W - F.length = 0 := by omega
    rw [h0, List.drop_zero]
  rw [← h1, List.drop_drop]
  congr 1
  simp only [List.length_append, List.length_drop]
  omega

/-- Main invariant of the conversation history: starting from a history that
is the flattening of at most W two-element chunks, after any sequence of
analyze calls the history is the flattening of the last W chunks of the
starting chunks followed by the successful exchanges. -/
theorem runAnalyses_window (W mr : Nat) :
    ∀ (reqs : List (GameState × Except String String))
      (E : List (List Turn)),
      (∀ c ∈ E, c.length = 2) → E.length ≤ W →
      (runAnalyses
          { conversation_history := E.flatten, max_history := W,
            max_response_length := mr } reqs).conversation_history
        = ((E ++ (successes reqs).map (exchangeTurns mr)).drop
            ((E ++ (successes reqs).map (exchangeTurns mr)).length - W)).flatten := by
  intro reqs
  induction reqs with
  | nil =>
    intro E hE hlen
    simp only [runAnalyses, successes, List.map_nil, List.append_nil]
    have h0 : E.length - W = 0 := by omega
    rw [h0, List.drop_zero]
  | cons p rest ih =>
    intro E hE hlen
    obtain ⟨gs, outcome⟩ := p
    cases outcome with
    | error e =>
      have hstep :
          (analyze (⟨E.flatten, W, mr⟩ : AIClientState) gs
              (Except.error e)).2
            = (⟨E.flatten, W, mr⟩ : AIClientState) := rfl
      simp only [runAnalyses, hstep]
      rw [ih E hE hlen]
      rfl
    | ok r =>
      have hstep :
          (analyze (⟨E.flatten, W, mr⟩ : AIClientState) gs
              (Except.ok r)).2
            = (⟨trimHistory W (E.flatten ++ exchangeTurns mr (gs, r)),
                W, mr⟩ : AIClientState) := rfl
      have hchunk : ∀ c ∈ E ++ [exchangeTurns mr (gs, r)], c.length = 2 := by
        intro c hc
        rcases List.mem_append.mp hc with h1 | h1
        · exact hE c h1
        · rw [List.mem_singleton.mp h1]; rfl
      have hflat : E.flatten ++ exchangeTurns mr (gs, r)
          = (E ++ [exchangeTurns mr (gs, r)]).flatten := by
        simp [List.flatten_append]
      have htrim : trimHistory W (E.flatten ++ exchangeTurns mr (gs, r))
          = ((E ++ [exchangeTurns mr (gs, r)]).drop
              ((E ++ [exchangeTurns mr (gs, r)]).length - W)).flatten := by
        rw [trimHistory, popFrontWhileLonger_eq_drop, hflat,
          flatten_length_chunks _ hchunk]
        have h2 : 2 * (E ++ [exchangeTurns mr (gs, r)]).length - 2 * W
            = 2 * ((E ++ [exchangeTurns mr (gs, r)]).length - W) := by omega
        rw [h2]
        exact flatten_drop_chunks _ hchunk _
      simp only [runAnalyses, hstep]
      rw [htrim]
      rw [ih ((E ++ [exchangeTurns mr (gs, r)]).drop
            ((E ++ [exchangeTurns mr (gs, r)]).length - W))
          (fun c hc => hchunk c (List.mem_of_mem_drop hc))
          (by rw [List.length_drop]; omega)]
      have hsucc : successes ((gs, Except.ok r) :: rest)
          = (gs, r) :: successes rest := rfl
      rw [hsucc, List.map_cons]
      have hassoc : E ++ exchangeTurns mr (gs, r)
            :: (successes rest).map (exchangeTurns mr)
          = (E ++ [exchangeTurns mr (gs, r)])
            ++ (successes rest).map (exchangeTurns mr) := by
        simp
      rw [hassoc]
      exact congrArg List.flatten (window_drop_absorb _ _ _)

/-- C3: starting from the newly constructed client (empty history, window
size W), after any sequence of analyze calls with N successful exchanges the
history is exactly the flattening of the min(N, W) most recent successful
exchanges (oldest evicted first), its length is 2 * min(N, W), always even
and never above 2 * W. Failed calls leave the history untouched, so this
holds at every point after initialization. -/
theorem conversation_history_window (W mr : Nat)
    (reqs : List (GameState × Except String String)) :
    (runAnalyses (⟨[], W, mr⟩ : AIClientState) reqs).conversation_history
      = (((successes reqs).map (exchangeTurns mr)).drop
          ((successes reqs).length - W)).flatten ∧
    (runAnalyses (⟨[], W, mr⟩ : AIClientState)
        reqs).conversation_history.length
      = 2 * min (successes reqs).length W ∧
    (runAnalyses (⟨[], W, mr⟩ : AIClientState)
        reqs).conversation_history.length % 2 = 0 ∧
    (runAnalyses (⟨[], W, mr⟩ : AIClientState)
        reqs).conversation_history.length ≤ 2 * W := by
  have h0 := runAnalyses_window W mr reqs []
    (by intro c hc; cases hc) (by simp)
  simp only [List.flatten_nil, List.nil_append] at h0
  have hN : ((successes reqs).map (exchangeTurns mr)).length
      = (successes reqs).length := List.length_map _ _
  have hK : ∀ c ∈ (successes reqs).map (exchangeTurns mr), c.length = 2 := by
    intro c hc
    rcases List.mem_map.mp hc with ⟨p, _, hp⟩
    rw [← hp]; rfl
  have h1 : (runAnalyses (⟨[], W, mr⟩ : AIClientState)
        reqs).conversation_history
      = (((successes reqs).map (exchangeTurns mr)).drop
          ((successes reqs).length - W)).flatten := by
    rw [h0, hN]
  have hlen : (runAnalyses (⟨[], W, mr⟩ : AIClientState)
        reqs).conversation_history.length
      = 2 * ((successes reqs).length - ((successes reqs).length - W)) := by
    rw [h1, flatten_length_chunks _
      (fun c hc => hK c (List.mem_of_mem_drop hc)), List.length_drop, hN]
  refine ⟨h1, ?_, ?_, ?_⟩
  · rw [hlen]; omega
  · rw [hlen]; omega
  · rw [hlen]; omega

/-- C2 counterexample: the claim says a successful automatic cycle
(user_text absent) appends no user-role turn, only the assistant reply, but
AIClient.analyze appends the built human_message as a user-role turn
unconditionally: from an empty history, one successful automatic analyze
leaves a history whose roles are user then assistant, not assistant alone. -/
theorem analyze_auto_cycle_user_turn_appended :
    ((analyze
        { conversation_history := [], max_history := 5,
          max_response_length := 150 }
        { screenshots := [{ image_path := "a.png", timestamp := 0 }],
          message := none, game_name := none,
          additional_context := "\x7b\x7d" }
        (Except.ok "hi")).2.conversation_history.map Turn.role)
      = [Role.user, Role.assistant] := by
  rfl

/-- C2 as amended: EVERY successful analyze call — whether or not user_text
is present, so in particular in an automatic cycle — appends a user-role
turn holding the built human_message and then the assistant-role reply, and
then trims from the front: the new history is exactly the old history
extended by that user/assistant pair with the front excess beyond
2 * max_history dropped. Whenever max_history is at least 1 the two new
turns survive the trim, so the history then ends with the user turn
followed by the assistant turn. -/
theorem analyze_success_appends_user_and_assistant (st : AIClientState)
    (gs : GameState) (reply : String) :
    (analyze st gs (Except.ok reply)).2.conversation_history
      = (st.conversation_history ++
          ([{ role := Role.user,
              text := buildHumanMessage st.max_response_length gs },
            { role := Role.assistant, text := reply }] : List Turn)).drop
          ((st.conversation_history.length + 2) - 2 * st.max_history) ∧
    (1 ≤ st.max_history →
      ∃ pre, (analyze st gs (Except.ok reply)).2.conversation_history =
        pre ++ [{ role := Role.user,
                  text := buildHumanMessage st.max_response_length gs },
                { role := Role.assistant, text := reply }]) := by
  have hlen : (st.conversation_history ++
      ([{ role := Role.user,
          text := buildHumanMessage st.max_response_length gs },
        { role := Role.assistant, text := reply }] : List Turn)).length
      = st.conversation_history.length + 2 := by
    rw [List.length_append]; rfl
  have h1 : (analyze st gs (Except.ok reply)).2.conversation_history
      = (st.conversation_history ++
          ([{ role := Role.user,
              text := buildHumanMessage st.max_response_length gs },
            { role := Role.assistant, text := reply }] : List Turn)).drop
          ((st.conversation_history.length + 2) - 2 * st.max_history) := by
    show trimHistory st.max_history
        (st.conversation_history ++
          ([{ role := Role.user,
              text := buildHumanMessage st.max_response_length gs },
            { role := Role.assistant, text := reply }] : List Turn)) = _
    rw [trimHistory, popFrontWhileLonger_eq_drop, hlen]
  refine ⟨h1, fun hW => ?_⟩
  refine ⟨st.conversation_history.drop
    ((st.conversation_history.length + 2) - 2 * st.max_history), ?_⟩
  rw [h1, List.drop_append_of_le_length (by omega)]

/-- A concrete client state (empty history, window 5) for exercising
analyze. -/
def c2Client : AIClientState :=
  { conversation_history := [], max_history := 5, max_response_length := 150 }

/-- A concrete automatic-cycle game state (no user message) for exercising
analyze. -/
def c2Gs : GameState :=
  { screenshots := [{ image_path := "b.png", timestamp := 1 }],
    message := none, game_name := none, additional_context := "\x7b\x7d" }

/-- C2 witness: the amended statement on a concrete successful automatic
cycle with an empty starting history and window size 5. -/
theorem analyze_success_appends_user_and_assistant_witness :
    ((analyze c2Client c2Gs (Except.ok "ok")).2.conversation_history
      = (c2Client.conversation_history ++
          ([{ role := Role.user,
              text := buildHumanMessage c2Client.max_response_length c2Gs },
            { role := Role.assistant, text := "ok" }] : List Turn)).drop
          ((c2Client.conversation_history.length + 2)
            - 2 * c2Client.max_history)) ∧
    (1 ≤ c2Client.max_history →
      ∃ pre, (analyze c2Client c2Gs
          (Except.ok "ok")).2.conversation_history =
        pre ++ [{ role := Role.user,
                  text := buildHumanMessage c2Client.max_response_length
                    c2Gs },
                { role := Role.assistant, text := "ok" }]) :=
  analyze_success_appends_user_and_assistant c2Client c2Gs "ok"

/-- The coordinator state of GamePartner (main.py) that the analysis loop
reads and writes: the two queues (head of the list is the front of the
queue; enqueue appends at the back), the screenshot store owned by
ScreenCapture and only read here, the AI client, the pacing fields
last_analysis_time and analysis_cooldown (the latter clamped to at least 5
in __init__), and current_game. The submitted field is a ghost log that
records, in order, the game_state argument of every ai_client.analyze call
the coordinator makes. -/
structure PartnerState where
  message_queue : List String
  ui_update_queue : List UiInstruction
  screenshots : List Screenshot
  client : AIClientState
  last_analysis_time : Int
  analysis_cooldown : Int
  current_game : Option String
  submitted : List GameState
  deriving DecidableEq

/-- The game_state dictionary built identically in GamePartner
_process_message (main.py lines 200-206) and _analyze_game_state (lines
228-234): the slice screenshots[-1:] of the freshly fetched latest
screenshot, the optional user message, the current game and the empty
additional context (rendered \x7b\x7d). -/
def buildGameState (screenshots : List Screenshot)
    (game_name : Option String) (message : Option String) : GameState :=
  let shots := get_recent_screenshots screenshots 1
  { screenshots := shots.drop (shots.length - 1),
    message := message,
    game_name := game_name,
    additional_context := "\x7b\x7d" }

/-- GamePartner._process_message (main.py lines 191-217): fetch the latest
screenshot; if there is none, log a warning and return, the drained message
being discarded; otherwise build the game state carrying the message, call
analyze, then enqueue the echo of the user message and, if the response
string is non-empty (Python truthiness of the string), the response. The
remote argument is the outcome of the remote call made inside analyze. -/
def processMessage (remote : Except String String) (message : String)
    (s : PartnerState) : PartnerState :=
  if (get_recent_screenshots s.screenshots 1).isEmpty then s
  else
    let gs := buildGameState s.screenshots s.current_game (some message)
    let res := analyze s.client gs remote
    let ui := s.ui_update_queue ++ [{ text := message, is_ai := false }]
    let ui2 := if res.1 ≠ "" then ui ++ [{ text := res.1, is_ai := true }]
      else ui
    { s with client := res.2, ui_update_queue := ui2,
             submitted := s.submitted ++ [gs] }

/-- GamePartner._analyze_game_state (main.py lines 219-244): like
_process_message but with no user message and no echo instruction; the
response is enqueued when non-empty. -/
def analyzeGameState (remote : Except String String) (s : PartnerState) :
    PartnerState :=
  if (get_recent_screenshots s.screenshots 1).isEmpty then s
  else
    let gs := buildGameState s.screenshots s.current_game none
    let res := analyze s.client gs remote
    let ui2 := if res.1 ≠ "" then
        s.ui_update_queue ++ [{ text := res.1, is_ai := true }]
      else s.ui_update_queue
    { s with client := res.2, ui_update_queue := ui2,
             submitted := s.submitted ++ [gs] }

/-- One iteration of the while loop of GamePartner._analysis_loop
(main.py lines 163-185) at wall-clock time now: drain at most one message
from the inbox and process it, then, if the cooldown has elapsed, fetch the
latest screenshot and, when one exists, run the automatic analysis and set
last_analysis_time to now. r1 is the remote outcome for the message-driven
call and r2 for the automatic call; each is consulted only if that call is
made. The loop body runs inside try/except, and every operation modelled
here is total, so a tick always yields a successor state and the loop
proceeds to the next tick. -/
def tick (now : Int) (r1 r2 : Except String String) (s : PartnerState) :
    PartnerState :=
  let s1 :=
    match s.message_queue with
    | [] => s
    | m :: rest => processMessage r1 m { s with message_queue := rest }
  if s1.analysis_cooldown ≤ now - s1.last_analysis_time then
    if (get_recent_screenshots s1.screenshots 1).isEmpty then s1
    else
      let s2 := analyzeGameState r2 s1
      { s2 with last_analysis_time := now }
  else s1

/-- Fetching the latest screenshot from an empty store yields nothing. -/
theorem get_recent_one_nil : get_recent_screenshots [] 1 = [] := rfl

/-- Fetching the latest screenshot from a non-empty store yields a
non-empty result. -/
theorem get_recent_one_ne_nil (l : List Screenshot) (h : l ≠ []) :
    (get_recent_screenshots l 1).isEmpty = false := by
  rw [get_recent_screenshots, if_neg (by simp [List.isEmpty_iff, h]),
    if_neg one_ne_zero]
  simp only [List.isEmpty_eq_false]
  intro hd
  rw [List.drop_eq_nil_iff] at hd
  exact h (List.length_eq_zero.mp (by omega))

/-- The error string returned by a failed analyze is never empty, so the
Python truthiness test on it succeeds. -/
theorem err_ne_empty (e : String) :
    "Error analyzing game state: " ++ e ≠ "" := by
  intro h
  have hl := congrArg String.length h
  rw [String.length_append] at hl
  have h1 : ("Error analyzing game state: " : String).length = 28 := rfl
  have h2 : ("" : String).length = 0 := rfl
  omega

@[simp] theorem buildGameState_message (store : List Screenshot)
    (g : Option String) (msg : Option String) :
    (buildGameState store g msg).message = msg := rfl

@[simp] theorem processMessage_message_queue (r : Except String String)
    (m : String) (s : PartnerState) :
    (processMessage r m s).message_queue = s.message_queue := by
  simp only [processMessage]
  split <;> rfl

@[simp] theorem processMessage_screenshots (r : Except String String)
    (m : String) (s : PartnerState) :
    (processMessage r m s).screenshots = s.screenshots := by
  simp only [processMessage]
  split <;> rfl

@[simp] theorem processMessage_last_analysis_time (r : Except String String)
    (m : String) (s : PartnerState) :
    (processMessage r m s).last_analysis_time = s.last_analysis_time := by
  simp only [processMessage]
  split <;> rfl

@[simp] theorem processMessage_analysis_cooldown (r : Except String String)
    (m : String) (s : PartnerState) :
    (processMessage r m s).analysis_cooldown = s.analysis_cooldown := by
  simp only [processMessage]
  split <;> rfl

@[simp] theorem processMessage_current_game (r : Except String String)
    (m : String) (s : PartnerState) :
    (processMessage r m s).current_game = s.current_game := by
  simp only [processMessage]
  split <;> rfl

@[simp] theorem analyzeGameState_message_queue (r : Except String String)
    (s : PartnerState) :
    (analyzeGameState r s).message_queue = s.message_queue := by
  simp only [analyzeGameState]
  split <;> rfl

@[simp] theorem analyzeGameState_screenshots (r : Except String String)
    (s : PartnerState) :
    (analyzeGameState r s).screenshots = s.screenshots := by
  simp only [analyzeGameState]
  split <;> rfl

@[simp] theorem analyzeGameState_last_analysis_time
    (r : Except String String) (s : PartnerState) :
    (analyzeGameState r s).last_analysis_time = s.last_analysis_time := by
  simp only [analyzeGameState]
  split <;> rfl

@[simp] theorem analyzeGameState_analysis_cooldown
    (r : Except String String) (s : PartnerState) :
    (analyzeGameState r s).analysis_cooldown = s.analysis_cooldown := by
  simp only [analyzeGameState]
  split <;> rfl

@[simp] theorem analyzeGameState_current_game (r : Except String String)
    (s : PartnerState) :
    (analyzeGameState r s).current_game = s.current_game := by
  simp only [analyzeGameState]
  split <;> rfl

/-- With an empty store a drained message is discarded: the state is
returned unchanged (and in particular nothing is submitted). -/
theorem processMessage_nil_store (r : Except String String) (m : String)
    (s : PartnerState) (h : s.screenshots = []) :
    processMessage r m s = s := by
  simp only [processMessage]
  rw [if_pos (by rw [h, get_recent_one_nil]; rfl)]

/-- With an empty store the automatic analysis is a no-op. -/
theorem analyzeGameState_nil_store (r : Except String String)
    (s : PartnerState) (h : s.screenshots = []) :
    analyzeGameState r s = s := by
  simp only [analyzeGameState]
  rw [if_pos (by rw [h, get_recent_one_nil]; rfl)]

/-- With a non-empty store, a drained message leads to exactly one submit,
carrying that message. -/
theorem processMessage_submitted_of_ne_nil (r : Except String String)
    (m : String) (s : PartnerState) (h : s.screenshots ≠ []) :
    (processMessage r m s).submitted
      = s.submitted
          ++ [buildGameState s.screenshots s.current_game (some m)] := by
  simp only [processMessage]
  rw [if_neg (by simp [get_recent_one_ne_nil s.screenshots h])]

/-- With a non-empty store, an automatic cycle leads to exactly one submit,
carrying no user message. -/
theorem analyzeGameState_submitted_of_ne_nil (r : Except String String)
    (s : PartnerState) (h : s.screenshots ≠ []) :
    (analyzeGameState r s).submitted
      = s.submitted ++ [buildGameState s.screenshots s.current_game none] := by
  simp only [analyzeGameState]
  rw [if_neg (by simp [get_recent_one_ne_nil s.screenshots h])]

/-- The UI instructions enqueued by a message cycle, conditional on the
truthiness of the response. -/
theorem processMessage_ui_of_ne_nil (r : Except String String) (m : String)
    (s : PartnerState) (h : s.screenshots ≠ []) :
    (processMessage r m s).ui_update_queue
      = if (analyze s.client
            (buildGameState s.screenshots s.current_game (some m)) r).1
            ≠ "" then
          (s.ui_update_queue ++ [{ text := m, is_ai := false }])
            ++ [(⟨(analyze s.client
                (buildGameState s.screenshots s.current_game (some m)) r).1,
                true⟩ : UiInstruction)]
        else s.ui_update_queue ++ [{ text := m, is_ai := false }] := by
  simp only [processMessage]
  rw [if_neg (by simp [get_recent_one_ne_nil s.screenshots h])]

/-- The UI instructions enqueued by an automatic cycle, conditional on the
truthiness of the response. -/
theorem analyzeGameState_ui_of_ne_nil (r : Except String String)
    (s : PartnerState) (h : s.screenshots ≠ []) :
    (analyzeGameState r s).ui_update_queue
      = if (analyze s.client
            (buildGameState s.screenshots s.current_game none) r).1 ≠ ""
        then s.ui_update_queue ++ [(⟨(analyze s.client
            (buildGameState s.screenshots s.current_game none) r).1,
            true⟩ : UiInstruction)]
        else s.ui_update_queue := by
  simp only [analyzeGameState]
  rw [if_neg (by simp [get_recent_one_ne_nil s.screenshots h])]

/-- A failing message cycle leaves the client (hence the history)
untouched. -/
theorem processMessage_client_error (e : String) (m : String)
    (s : PartnerState) :
    (processMessage (Except.error e) m s).client = s.client := by
  simp only [processMessage]
  split <;> rfl

/-- A failing automatic cycle leaves the client (hence the history)
untouched. -/
theorem analyzeGameState_client_error (e : String) (s : PartnerState) :
    (analyzeGameState (Except.error e) s).client = s.client := by
  simp only [analyzeGameState]
  split <;> rfl

/-- A failing message cycle enqueues exactly the echo of the user text and
one error instruction, in that order. -/
theorem processMessage_ui_error (e m : String) (s : PartnerState)
    (h : s.screenshots ≠ []) :
    (processMessage (Except.error e) m s).ui_update_queue
      = s.ui_update_queue ++
          [{ text := m, is_ai := false },
           { text := "Error analyzing game state: " ++ e, is_ai := true }] := by
  rw [processMessage_ui_of_ne_nil _ _ _ h]
  have hres : (analyze s.client
      (buildGameState s.screenshots s.current_game (some m))
      (Except.error e)).1 = "Error analyzing game state: " ++ e := rfl
  rw [hres, if_pos (err_ne_empty e), List.append_assoc]
  rfl

/-- A failing automatic cycle enqueues exactly one error instruction. -/
theorem analyzeGameState_ui_error (e : String) (s : PartnerState)
    (h : s.screenshots ≠ []) :
    (analyzeGameState (Except.error e) s).ui_update_queue
      = s.ui_update_queue ++
          [{ text := "Error analyzing game state: " ++ e,
             is_ai := true }] := by
  rw [analyzeGameState_ui_of_ne_nil _ _ h]
  have hres : (analyze s.client
      (buildGameState s.screenshots s.current_game none)
      (Except.error e)).1 = "Error analyzing game state: " ++ e := rfl
  rw [hres, if_pos (err_ne_empty e)]

/-- Tick decomposition: with no pending message, an elapsed cooldown and a
non-empty store, the tick is the automatic analysis with the pacing time
advanced to now. -/
theorem tick_auto_only (now : Int) (r1 r2 : Except String String)
    (s : PartnerState) (hq : s.message_queue = [])
    (hcool : s.analysis_cooldown ≤ now - s.last_analysis_time)
    (hshot : s.screenshots ≠ []) :
    tick now r1 r2 s
      = { analyzeGameState r2 s with last_analysis_time := now } := by
  simp only [tick, hq]
  rw [if_pos hcool,
    if_neg (by simp [get_recent_one_ne_nil s.screenshots hshot])]

/-- Tick decomposition: with a pending message and a cooldown that has not
elapsed, the tick is exactly the processing of that message. -/
theorem tick_message_only (now : Int) (r1 r2 : Except String String)
    (m : String) (rest : List String) (s : PartnerState)
    (hq : s.message_queue = m :: rest)
    (hcool : ¬ s.analysis_cooldown ≤ now - s.last_analysis_time) :
    tick now r1 r2 s
      = processMessage r1 m { s with message_queue := rest } := by
  have hc : ¬ ((processMessage r1 m
        { s with message_queue := rest }).analysis_cooldown
      ≤ now - (processMessage r1 m
        { s with message_queue := rest }).last_analysis_time) := by
    rw [processMessage_analysis_cooldown, processMessage_last_analysis_time]
    exact hcool
  simp only [tick, hq]
  rw [if_neg hc]

/-- Tick decomposition: with a pending message, an elapsed cooldown and a
non-empty store, the tick processes the message AND then also runs the
automatic analysis (there is no skip of the periodic check). -/
theorem tick_message_and_auto (now : Int) (r1 r2 : Except String String)
    (m : String) (rest : List String) (s : PartnerState)
    (hq : s.message_queue = m :: rest)
    (hcool : s.analysis_cooldown ≤ now - s.last_analysis_time)
    (hshot : s.screenshots ≠ []) :
    tick now r1 r2 s
      = { analyzeGameState r2
            (processMessage r1 m { s with message_queue := rest }) with
          last_analysis_time := now } := by
  have hc : (processMessage r1 m
        { s with message_queue := rest }).analysis_cooldown
      ≤ now - (processMessage r1 m
        { s with message_queue := rest }).last_analysis_time := by
    rw [processMessage_analysis_cooldown, processMessage_last_analysis_time]
    exact hcool
  have hs2 : ¬ ((get_recent_screenshots (processMessage r1 m
      { s with message_queue := rest }).screenshots 1).isEmpty = true) := by
    rw [processMessage_screenshots]
    simp [get_recent_one_ne_nil s.screenshots hshot]
  simp only [tick, hq]
  rw [if_pos hc, if_neg hs2]

/-- Tick decomposition: with an empty inbox and a cooldown that has not
elapsed, the tick changes nothing. -/
theorem tick_idle (now : Int) (r1 r2 : Except String String)
    (s : PartnerState) (hq : s.message_queue = [])
    (hcool : ¬ s.analysis_cooldown ≤ now - s.last_analysis_time) :
    tick now r1 r2 s = s := by
  simp only [tick, hq]
  rw [if_neg hcool]

/-- Tick decomposition: with a pending message but an empty store, the tick
only removes the message from the inbox; nothing is submitted. -/
theorem tick_empty_store_cons (now : Int) (r1 r2 : Except String String)
    (m : String) (rest : List String) (s : PartnerState)
    (hq : s.message_queue = m :: rest) (hs : s.screenshots = []) :
    tick now r1 r2 s = { s with message_queue := rest } := by
  have hp : processMessage r1 m { s with message_queue := rest }
      = { s with message_queue := rest } :=
    processMessage_nil_store _ _ _ hs
  simp only [tick, hq, hp]
  split
  · rw [if_pos (by rw [hs]; rfl)]
  · rfl

/-- A concrete coordinator state with one pending message, one stored
screenshot and an elapsed cooldown at time 10 (last_analysis_time 0,
cooldown 5): exactly the scenario of the C1 claim. -/
def c1State : PartnerState :=
  { message_queue := ["hello"],
    ui_update_queue := [],
    screenshots := [{ image_path := "s.png", timestamp := 0 }],
    client := { conversation_history := [], max_history := 5,
                max_response_length := 150 },
    last_analysis_time := 0,
    analysis_cooldown := 5,
    current_game := none,
    submitted := [] }

/-- C1 counterexample: in a tick where a pending message is present, the
cooldown has elapsed and the store is non-empty, the claim says exactly one
request is submitted and the periodic check is skipped; but _analysis_loop
has no skip — after processing the message it falls through to the periodic
check, so the tick submits TWO requests: the message-driven one (user text
hello) and then the automatic one (no user text). -/
theorem tick_pending_and_cooldown_two_submits :
    ((tick 10 (Except.ok "hi") (Except.ok "go") c1State).submitted.map
        GameState.message) = [some "hello", none] ∧
    (tick 10 (Except.ok "hi") (Except.ok "go") c1State).submitted.length
      = 2 := by
  exact ⟨rfl, rfl⟩

/-- C1 as amended: in a tick with a pending message, an elapsed cooldown and
a non-empty store, the pending message is submitted first and then the
automatic analysis also runs — two submits in the same tick, with
last_analysis_time advanced to now; the periodic check is not skipped. -/
theorem tick_pending_and_cooldown_both_fire (now : Int)
    (r1 r2 : Except String String) (m : String) (rest : List String)
    (s : PartnerState) (hq : s.message_queue = m :: rest)
    (hshot : s.screenshots ≠ [])
    (hcool : s.analysis_cooldown ≤ now - s.last_analysis_time) :
    (tick now r1 r2 s).submitted
      = s.submitted ++
          [buildGameState s.screenshots s.current_game (some m),
           buildGameState s.screenshots s.current_game none] ∧
    (tick now r1 r2 s).last_analysis_time = now := by
  have htick := tick_message_and_auto now r1 r2 m rest s hq hcool hshot
  have hPshot : (processMessage r1 m
      { s with message_queue := rest }).screenshots ≠ [] := by
    rw [processMessage_screenshots]
    exact hshot
  constructor
  · rw [htick, analyzeGameState_submitted_of_ne_nil r2 _ hPshot,
      processMessage_submitted_of_ne_nil r1 m
        { s with message_queue := rest } hshot,
      processMessage_screenshots, processMessage_current_game]
    simp
  · rw [htick]

/-- C1 witness: the amended statement on the concrete state c1State. -/
theorem tick_pending_and_cooldown_both_fire_witness :
    (tick 10 (Except.ok "hi") (Except.ok "go") c1State).submitted
      = c1State.submitted ++
          [buildGameState c1State.screenshots c1State.current_game
             (some "hello"),
           buildGameState c1State.screenshots c1State.current_game none] ∧
    (tick 10 (Except.ok "hi") (Except.ok "go") c1State).last_analysis_time
      = 10 :=
  tick_pending_and_cooldown_both_fire 10 (Except.ok "hi") (Except.ok "go")
    "hello" [] c1State rfl (by decide) (by decide)

/-- A concrete coordinator state with an empty inbox, one stored screenshot
and an elapsed cooldown at time 10: an automatic cycle is due. -/
def c4State : PartnerState :=
  { message_queue := [],
    ui_update_queue := [],
    screenshots := [{ image_path := "s.png", timestamp := 0 }],
    client := { conversation_history := [], max_history := 5,
                max_response_length := 150 },
    last_analysis_time := 0,
    analysis_cooldown := 5,
    current_game := none,
    submitted := [] }

/-- A concrete coordinator state with one pending message, one stored
screenshot and an elapsed cooldown at time 10: the tick fires both the
message-driven and the automatic remote call. -/
def c4BothState : PartnerState :=
  { message_queue := ["hello"],
    ui_update_queue := [],
    screenshots := [{ image_path := "s.png", timestamp := 0 }],
    client := { conversation_history := [], max_history := 5,
                max_response_length := 150 },
    last_analysis_time := 0,
    analysis_cooldown := 5,
    current_game := none,
    submitted := [] }

/-- C4 counterexample: the claim says a cycle with a failing remote call
enqueues exactly one UiInstruction containing an error string, but in a
tick where a pending message coincides with an elapsed cooldown (a real
cycle, per the C1 correction) both remote calls are made; when both fail,
TWO error instructions are enqueued, one per failing call, after the
non-error echo of the user text. -/
theorem tick_double_failure_two_errors :
    (tick 10 (Except.error "bad1") (Except.error "bad2")
        c4BothState).ui_update_queue
      = [{ text := "hello", is_ai := false },
         { text := "Error analyzing game state: " ++ "bad1",
           is_ai := true },
         { text := "Error analyzing game state: " ++ "bad2",
           is_ai := true }] ∧
    (tick 10 (Except.error "bad1") (Except.error "bad2")
        c4BothState).ui_update_queue.countP (fun i => i.is_ai) = 2 := by
  exact ⟨rfl, rfl⟩

/-- C4 as amended: in any cycle (store non-empty) in which every remote
call made fails, the conversation history is left unchanged and the tick
always completes into a well-defined successor state, so the loop proceeds
normally; each failing call enqueues exactly one UiInstruction carrying the
user-visible error string: one in a single-call cycle — in a message cycle
preceded only by the non-error echo of the user text — and two when a
pending message and an elapsed cooldown make the tick fire both calls and
both fail. -/
theorem tick_remote_failure_safe (now : Int) (e1 e2 : String)
    (s : PartnerState) (hshot : s.screenshots ≠ []) :
    (tick now (Except.error e1)
        (Except.error e2) s).client.conversation_history
      = s.client.conversation_history ∧
    (s.message_queue = [] →
      s.analysis_cooldown ≤ now - s.last_analysis_time →
      (tick now (Except.error e1) (Except.error e2) s).ui_update_queue
        = s.ui_update_queue ++
            [{ text := "Error analyzing game state: " ++ e2,
               is_ai := true }]) ∧
    (s.message_queue = [] →
      ¬ s.analysis_cooldown ≤ now - s.last_analysis_time →
      (tick now (Except.error e1) (Except.error e2) s).ui_update_queue
        = s.ui_update_queue) ∧
    (∀ m rest, s.message_queue = m :: rest →
      ¬ s.analysis_cooldown ≤ now - s.last_analysis_time →
      (tick now (Except.error e1) (Except.error e2) s).ui_update_queue
        = s.ui_update_queue ++
            [{ text := m, is_ai := false },
             { text := "Error analyzing game state: " ++ e1,
               is_ai := true }]) ∧
    (∀ m rest, s.message_queue = m :: rest →
      s.analysis_cooldown ≤ now - s.last_analysis_time →
      (tick now (Except.error e1) (Except.error e2) s).ui_update_queue
        = s.ui_update_queue ++
            [{ text := m, is_ai := false },
             { text := "Error analyzing game state: " ++ e1,
               is_ai := true },
             { text := "Error analyzing game state: " ++ e2,
               is_ai := true }]) ∧
    (tick now (Except.error e1) (Except.error e2) s).screenshots
      = s.screenshots := by
  have hclient : (tick now (Except.error e1) (Except.error e2) s).client
      = s.client := by
    cases hmq : s.message_queue with
    | nil =>
      by_cases hcool : s.analysis_cooldown ≤ now - s.last_analysis_time
      · rw [tick_auto_only now _ _ s hmq hcool hshot,
          analyzeGameState_client_error]
      · rw [tick_idle now _ _ s hmq hcool]
    | cons m rest =>
      by_cases hcool : s.analysis_cooldown ≤ now - s.last_analysis_time
      · rw [tick_message_and_auto now _ _ m rest s hmq hcool hshot,
          analyzeGameState_client_error, processMessage_client_error]
      · rw [tick_message_only now _ _ m rest s hmq hcool,
          processMessage_client_error]
  have hscr : (tick now (Except.error e1) (Except.error e2) s).screenshots
      = s.screenshots := by
    cases hmq : s.message_queue with
    | nil =>
      by_cases hcool : s.analysis_cooldown ≤ now - s.last_analysis_time
      · rw [tick_auto_only now _ _ s hmq hcool hshot,
          analyzeGameState_screenshots]
      · rw [tick_idle now _ _ s hmq hcool]
    | cons m rest =>
      by_cases hcool : s.analysis_cooldown ≤ now - s.last_analysis_time
      · rw [tick_message_and_auto now _ _ m rest s hmq hcool hshot,
          analyzeGameState_screenshots, processMessage_screenshots]
      · rw [tick_message_only now _ _ m rest s hmq hcool,
          processMessage_screenshots]
  refine ⟨by rw [hclient], ?_, ?_, ?_, ?_, hscr⟩
  · intro hq hcool
    rw [tick_auto_only now _ _ s hq hcool hshot,
      analyzeGameState_ui_error e2 s hshot]
  · intro hq hcool
    rw [tick_idle now _ _ s hq hcool]
  · intro m rest hq hcool
    rw [tick_message_only now _ _ m rest s hq hcool,
      processMessage_ui_error e1 m { s with message_queue := rest } hshot]
  · intro m rest hq hcool
    rw [tick_message_and_auto now _ _ m rest s hq hcool hshot,
      analyzeGameState_ui_error e2
        (processMessage (Except.error e1) m
          { s with message_queue := rest })
        (by rw [processMessage_screenshots]; exact hshot),
      processMessage_ui_error e1 m { s with message_queue := rest } hshot]
    simp

/-- C4 witness: the amended statement on the concrete state c4State (empty
inbox, elapsed cooldown, one screenshot). -/
theorem tick_remote_failure_safe_witness :
    (tick 10 (Except.error "boom")
        (Except.error "boom") c4State).client.conversation_history
      = c4State.client.conversation_history ∧
    (c4State.message_queue = [] →
      c4State.analysis_cooldown ≤ 10 - c4State.last_analysis_time →
      (tick 10 (Except.error "boom")
          (Except.error "boom") c4State).ui_update_queue
        = c4State.ui_update_queue ++
            [{ text := "Error analyzing game state: " ++ "boom",
               is_ai := true }]) ∧
    (c4State.message_queue = [] →
      ¬ c4State.analysis_cooldown ≤ 10 - c4State.last_analysis_time →
      (tick 10 (Except.error "boom")
          (Except.error "boom") c4State).ui_update_queue
        = c4State.ui_update_queue) ∧
    (∀ m rest, c4State.message_queue = m :: rest →
      ¬ c4State.analysis_cooldown ≤ 10 - c4State.last_analysis_time →
      (tick 10 (Except.error "boom")
          (Except.error "boom") c4State).ui_update_queue
        = c4State.ui_update_queue ++
            [{ text := m, is_ai := false },
             { text := "Error analyzing game state: " ++ "boom",
               is_ai := true }]) ∧
    (∀ m rest, c4State.message_queue = m :: rest →
      c4State.analysis_cooldown ≤ 10 - c4State.last_analysis_time →
      (tick 10 (Except.error "boom")
          (Except.error "boom") c4State).ui_update_queue
        = c4State.ui_update_queue ++
            [{ text := m, is_ai := false },
             { text := "Error analyzing game state: " ++ "boom",
               is_ai := true },
             { text := "Error analyzing game state: " ++ "boom",
               is_ai := true }]) ∧
    (tick 10 (Except.error "boom") (Except.error "boom") c4State).screenshots
      = c4State.screenshots :=
  tick_remote_failure_safe 10 "boom" "boom" c4State (by decide)

/-- A concrete coordinator state with one pending message and one stored
screenshot, whose cooldown (5, from time 0) has not elapsed at time 3. -/
def c5State : PartnerState :=
  { message_queue := ["hey"],
    ui_update_queue := [],
    screenshots := [{ image_path := "s.png", timestamp := 0 }],
    client := { conversation_history := [], max_history := 5,
                max_response_length := 150 },
    last_analysis_time := 0,
    analysis_cooldown := 5,
    current_game := none,
    submitted := [] }

/-- C5: with cooldown 5 and last_analysis_time T, in any tick strictly
before T + 5 no automatic request is submitted (every request submitted in
the tick carries user text), last_analysis_time stays T — in particular,
processing a user message does not advance it — and a pending user message
is still submitted in that very tick regardless of the cooldown, provided
the store is non-empty. -/
theorem cooldown_gates_auto_not_user (now T : Int)
    (r1 r2 : Except String String) (s : PartnerState)
    (hT : s.last_analysis_time = T) (hc : s.analysis_cooldown = 5)
    (hnow : now < T + 5) :
    (∀ gs ∈ (tick now r1 r2 s).submitted.drop s.submitted.length,
        gs.message ≠ none) ∧
    (tick now r1 r2 s).last_analysis_time = T ∧
    (∀ m rest, s.message_queue = m :: rest → s.screenshots ≠ [] →
      (tick now r1 r2 s).submitted
        = s.submitted
            ++ [buildGameState s.screenshots s.current_game (some m)]) := by
  have hcool : ¬ s.analysis_cooldown ≤ now - s.last_analysis_time := by
    rw [hT, hc]
    omega
  cases hmq : s.message_queue with
  | nil =>
    have htick : tick now r1 r2 s = s := tick_idle now r1 r2 s hmq hcool
    refine ⟨?_, ?_, ?_⟩
    · rw [htick, List.drop_length]
      intro gs hgs
      cases hgs
    · rw [htick, hT]
    · intro m rest hq'
      exact absurd hq'.symm (List.cons_ne_nil m rest)
  | cons m rest =>
    by_cases hs : s.screenshots = []
    · have htick : tick now r1 r2 s = { s with message_queue := rest } :=
        tick_empty_store_cons now r1 r2 m rest s hmq hs
      refine ⟨?_, ?_, ?_⟩
      · rw [htick]
        simp
      · rw [htick]
        exact hT
      · intro m' rest' _ hs'
        exact absurd hs hs'
    · have htick : tick now r1 r2 s
          = processMessage r1 m { s with message_queue := rest } :=
        tick_message_only now r1 r2 m rest s hmq hcool
      have hsub : (processMessage r1 m
          { s with message_queue := rest }).submitted
          = s.submitted
              ++ [buildGameState s.screenshots s.current_game (some m)] := by
        rw [processMessage_submitted_of_ne_nil r1 m
          { s with message_queue := rest } hs]
      refine ⟨?_, ?_, ?_⟩
      · rw [htick, hsub, List.drop_left]
        intro gs hgs
        rw [List.mem_singleton] at hgs
        rw [hgs, buildGameState_message]
        simp
      · rw [htick, processMessage_last_analysis_time]
        exact hT
      · intro m' rest' hq' _
        injection hq' with h1 h2
        subst h1
        rw [htick, hsub]

/-- C5 witness: at time 3 with last_analysis_time 0 and cooldown 5, the
pending message of c5State is submitted, nothing automatic fires and the
pacing time is not advanced. -/
theorem cooldown_gates_auto_not_user_witness :
    (∀ gs ∈ (tick 3 (Except.ok "hi") (Except.ok "go")
        c5State).submitted.drop c5State.submitted.length,
      gs.message ≠ none) ∧
    (tick 3 (Except.ok "hi") (Except.ok "go") c5State).last_analysis_time
      = 0 ∧
    (∀ m rest, c5State.message_queue = m :: rest →
      c5State.screenshots ≠ [] →
      (tick 3 (Except.ok "hi") (Except.ok "go") c5State).submitted
        = c5State.submitted
            ++ [buildGameState c5State.screenshots c5State.current_game
                  (some m)]) :=
  cooldown_gates_auto_not_user 3 0 (Except.ok "hi") (Except.ok "go")
    c5State rfl rfl (by decide)

/-- A concrete coordinator state with one pending message and an EMPTY
screenshot store at time 100 (cooldown long elapsed). -/
def c6State : PartnerState :=
  { message_queue := ["hello"],
    ui_update_queue := [],
    screenshots := [],
    client := { conversation_history := [], max_history := 5,
                max_response_length := 150 },
    last_analysis_time := 0,
    analysis_cooldown := 5,
    current_game := none,
    submitted := [] }

/-- C6 counterexample: the claim says a drained message is never dropped
without being submitted, but when the store is empty _process_message
returns after a warning with the message already removed from the inbox:
on c6State the tick consumes the message hello, submits nothing and emits
nothing. -/
theorem inbox_drop_on_empty_store_cex :
    (tick 100 (Except.ok "hi") (Except.ok "go") c6State).message_queue = []
    ∧ (tick 100 (Except.ok "hi") (Except.ok "go") c6State).submitted = []
    ∧ (tick 100 (Except.ok "hi") (Except.ok "go")
        c6State).ui_update_queue = [] := by
  exact ⟨rfl, rfl, rfl⟩

/-- C6 as amended: exactly one message is drained per tick (the inbox loses
exactly its front element, so no message is ever processed twice); if the
store is non-empty the drained message is submitted exactly once, as the
user text of the first submit of the tick, any further submit of the tick
being the automatic one with no user text; if the store is empty the
drained message is discarded without any submit. -/
theorem inbox_message_drained_once (now : Int)
    (r1 r2 : Except String String) (m : String) (rest : List String)
    (s : PartnerState) (hq : s.message_queue = m :: rest) :
    (tick now r1 r2 s).message_queue = rest ∧
    (s.screenshots = [] → (tick now r1 r2 s).submitted = s.submitted) ∧
    (s.screenshots ≠ [] →
      ∃ auto : List GameState,
        (tick now r1 r2 s).submitted
          = s.submitted ++
              (buildGameState s.screenshots s.current_game (some m)
                :: auto) ∧
        ∀ gs ∈ auto, gs.message = none) := by
  by_cases hs : s.screenshots = []
  · have htick := tick_empty_store_cons now r1 r2 m rest s hq hs
    exact ⟨by rw [htick], fun _ => by rw [htick], fun hs' => absurd hs hs'⟩
  · by_cases hcool : s.analysis_cooldown ≤ now - s.last_analysis_time
    · have htick := tick_message_and_auto now r1 r2 m rest s hq hcool hs
      have hPshot : (processMessage r1 m
          { s with message_queue := rest }).screenshots ≠ [] := by
        rw [processMessage_screenshots]
        exact hs
      refine ⟨?_, fun hnil => absurd hnil hs, fun _ => ?_⟩
      · rw [htick, analyzeGameState_message_queue,
          processMessage_message_queue]
      · refine ⟨[buildGameState s.screenshots s.current_game none],
          ?_, ?_⟩
        · rw [htick, analyzeGameState_submitted_of_ne_nil r2 _ hPshot,
            processMessage_submitted_of_ne_nil r1 m
              { s with message_queue := rest } hs,
            processMessage_screenshots, processMessage_current_game]
          simp
        · intro gs hgs
          rw [List.mem_singleton] at hgs
          rw [hgs, buildGameState_message]
    · have htick := tick_message_only now r1 r2 m rest s hq hcool
      refine ⟨?_, fun hnil => absurd hnil hs, fun _ => ?_⟩
      · rw [htick, processMessage_message_queue]
      · refine ⟨[], ?_, ?_⟩
        · rw [htick, processMessage_submitted_of_ne_nil r1 m
            { s with message_queue := rest } hs]
        · intro gs hgs
          cases hgs

/-- A concrete coordinator state with one pending message and one stored
screenshot, cooldown not elapsed at time 3. -/
def c6WitState : PartnerState :=
  { message_queue := ["hello"],
    ui_update_queue := [],
    screenshots := [{ image_path := "s.png", timestamp := 0 }],
    client := { conversation_history := [], max_history := 5,
                max_response_length := 150 },
    last_analysis_time := 0,
    analysis_cooldown := 5,
    current_game := none,
    submitted := [] }

/-- C6 witness: the amended statement on the concrete state c6WitState. -/
theorem inbox_message_drained_once_witness :
    (tick 3 (Except.ok "hi") (Except.ok "go") c6WitState).message_queue
      = [] ∧
    (c6WitState.screenshots = [] →
      (tick 3 (Except.ok "hi") (Except.ok "go") c6WitState).submitted
        = c6WitState.submitted) ∧
    (c6WitState.screenshots ≠ [] →
      ∃ auto : List GameState,
        (tick 3 (Except.ok "hi") (Except.ok "go") c6WitState).submitted
          = c6WitState.submitted ++
              (buildGameState c6WitState.screenshots c6WitState.current_game
                (some "hello") :: auto) ∧
        ∀ gs ∈ auto, gs.message = none) :=
  inbox_message_drained_once 3 (Except.ok "hi") (Except.ok "go")
    "hello" [] c6WitState rfl

/-- A concrete coordinator state with one stored screenshot and an empty UI
queue, for exercising _process_message directly. -/
def c8State : PartnerState :=
  { message_queue := [],
    ui_update_queue := [],
    screenshots := [{ image_path := "s.png", timestamp := 0 }],
    client := { conversation_history := [], max_history := 5,
                max_response_length := 150 },
    last_analysis_time := 0,
    analysis_cooldown := 5,
    current_game := none,
    submitted := [] }

/-- C8 counterexample: the claim quantifies over every successful remote
reply, but _process_message enqueues the reply only when the string is
truthy: with the successful empty reply, only the echo of the user message
is enqueued — one UiInstruction, not two. -/
theorem processMessage_empty_reply_single_instruction :
    (processMessage (Except.ok "") "hello" c8State).ui_update_queue
      = [{ text := "hello", is_ai := false }] := by
  rfl

/-- C8 as amended: for every user message submission with at least one
screenshot present and a successful NON-EMPTY remote reply, exactly two
UiInstructions are enqueued, in order: first the echo of the user message
(is_ai false), then the reply (is_ai true) — so the on-screen order is
request then response. With an empty reply only the echo is enqueued. -/
theorem processMessage_round_trip_ui (m reply : String) (s : PartnerState)
    (hshot : s.screenshots ≠ []) (hreply : reply ≠ "") :
    (processMessage (Except.ok reply) m s).ui_update_queue
      = s.ui_update_queue ++
          [{ text := m, is_ai := false },
           { text := reply, is_ai := true }] := by
  rw [processMessage_ui_of_ne_nil _ _ _ hshot]
  have hres : (analyze s.client
      (buildGameState s.screenshots s.current_game (some m))
      (Except.ok reply)).1 = reply := rfl
  rw [hres, if_pos hreply, List.append_assoc]
  rfl

/-- C8 witness: submitting hello with reply hi on c8State enqueues the echo
and then the reply. -/
theorem processMessage_round_trip_ui_witness :
    (processMessage (Except.ok "hi") "hello" c8State).ui_update_queue
      = c8State.ui_update_queue ++
          [{ text := "hello", is_ai := false },
           { text := "hi", is_ai := true }] :=
  processMessage_round_trip_ui "hello" "hi" c8State (by decide) (by decide)

end AIGamePartner
